import Mathlib

/-!
Verification of the paperbox layout engine (src/paperbox.py).

The program is a single pipeline `generate_paper_box(l, w, h, ...)` that sorts
the three dimensions descending, optionally inflates them by `2*gap`, validates
them against the page, sizes the mid (glue) faces and then emits a fixed
sequence of rectangles, with dash styles, to a PDF canvas.

We embed the pipeline over exact rationals.  Every `c.rect(x*cm, y*cm, W*cm,
H*cm)` call of the source is recorded as a `FaceRect` in centimetre units; the
uniform `cm` point-scale applied on each canvas call is part of the out-of-core
canvas adapter and drops out of every geometric statement.  `c.setDash(4, 1)`,
`c.setDash(1, 2)` and `c.setDash([])` determine the style tag of the following
rectangles.  Python `assert` failures, and the `NameError` raised at drawing
time when the module flag `make_long_mid_faces` is false (the source assigns
`w_mid` only inside `if make_long_mid_faces:`), are the error results; the two
`logging.warning` calls of the pipeline are recorded as warnings, in call
order.  The module globals `make_long_mid_faces` and `ALLOW_WARPING` become
explicit boolean parameters.
-/

/-- Dash state of the canvas when a rectangle is emitted. -/
inductive LineStyle where
  | solid
  | dashCoarse  -- after c.setDash(4, 1)
  | dashFine    -- after c.setDash(1, 2)
deriving Repr, DecidableEq

/-- One `c.rect(x*cm, y*cm, width*cm, height*cm)` call, in centimetre units,
tagged with the dash state in force when it was issued. -/
structure FaceRect where
  x : ℚ
  y : ℚ
  width : ℚ
  height : ℚ
  style : LineStyle
deriving Repr, DecidableEq

/-- The two `logging.warning` calls of the pipeline. -/
inductive BoxWarning where
  | LengthOverflow  -- "Length is too big ..." (line 113)
  | MidFaceClamped  -- "Width of the mid faces is too big ..." (line 134)
deriving Repr, DecidableEq

/-- Fatal outcomes of a run: the two `assert` statements and the `NameError`
raised at the first use of `w_mid` when `make_long_mid_faces` is false. -/
inductive BoxError where
  | InvalidDimension      -- assert l >= w >= h > 0
  | DimensionsExceedPage  -- assert L_MAX < L_PAGE  /  assert W_MAX <= W_PAGE
  | UnboundWMid           -- NameError: w_mid assigned only under make_long_mid_faces
deriving Repr, DecidableEq

/-- Result of a successful run: the working (possibly gap-inflated) dimensions,
the mid-face width, the warnings issued, and the emitted rectangles in
drawing order. -/
structure BoxOutput where
  l : ℚ
  w : ℚ
  h : ℚ
  w_mid : ℚ
  warnings : List BoxWarning
  layout : List FaceRect
deriving Repr, DecidableEq

/-- reportlab's `A4 = (210*mm, 297*mm)` with `mm = 7.2/2.54` points, as exact
rationals: `(21 * 3600/127, 29.7 * 3600/127)` points. -/
def A4 : ℚ × ℚ := (75600 / 127, 106920 / 127)

/-- `l, w, h = sorted([l, w, h], reverse=True)` (line 91): the three values in
descending order. -/
def sort3Desc (x y z : ℚ) : ℚ × ℚ × ℚ :=
  if x ≥ y then
    if y ≥ z then (x, y, z)
    else if x ≥ z then (x, z, y)
    else (z, x, y)
  else
    if x ≥ z then (y, x, z)
    else if y ≥ z then (y, z, x)
    else (z, y, x)

/-- Lines 91-102: sort descending, then, when `GAPPING = gap > 0`, inflate each
dimension by `2*gap`.  These working dimensions are what the rest of the
pipeline uses. -/
def workingDims (l0 w0 h0 gap : ℚ) : ℚ × ℚ × ℚ :=
  let s := sort3Desc l0 w0 h0
  if 0 < gap then (s.1 + 2 * gap, s.2.1 + 2 * gap, s.2.2 + 2 * gap) else s

/-- Lines 145-162 ("main faces" and "cover"): the five stacked main-column
rectangles; the cover is emitted under `setDash(4, 1)` with a `cut_gap`
inset. -/
def mainFaces (l w h w_mid cut_gap x_offset y_offset : ℚ) : List FaceRect :=
  let x0 := x_offset + w_mid
  let y0 := y_offset
  let y1 := y0 + h
  let y2 := y1 + l
  let y3 := y2 + h
  let y4 := y3 + l
  [⟨x0, y0, w, h, .solid⟩,
   ⟨x0, y1, w, l, .solid⟩,
   ⟨x0, y2, w, h, .solid⟩,
   ⟨x0, y3, w, l, .solid⟩,
   ⟨x0 + cut_gap, y4, w - 2 * cut_gap, h - cut_gap, .dashCoarse⟩]

/-- Lines 164-207 ("sides" and "up side faces"): base tabs under
`setDash(1, 2)`, the two solid side panels, and the two upper fold-over flaps
under `setDash(4, 1)`. -/
def sideFaces (l w h w_mid cut_gap x_offset y_offset : ℚ) : List FaceRect :=
  let x0 := x_offset + w_mid - h
  let y0 := y_offset
  let x1 := x0 + (w + h)
  let y1 := y0 + (l + h * 2)
  let x2 := x1 - (w + h)
  [⟨x0 + cut_gap, y0 + cut_gap, h - 2 * cut_gap, h - cut_gap, .dashFine⟩,
   ⟨x0, y0 + h, h, l, .solid⟩,
   ⟨x1 + cut_gap, y0 + cut_gap, h - 2 * cut_gap, h - cut_gap, .dashFine⟩,
   ⟨x1, y0 + h, h, l, .solid⟩,
   ⟨x1, y1 + cut_gap, h - cut_gap, l - 2 * cut_gap, .dashCoarse⟩,
   ⟨x2 + cut_gap, y1 + cut_gap, h - cut_gap, l - 2 * cut_gap, .dashCoarse⟩]

/-- Lines 209-233 ("mid faces"): the two glue faces, both under
`setDash(1, 2)`; the left one is offset by `cut_gap`, the right one starts
flush at the column. -/
def midFaces (l w h w_mid cut_gap x_offset y_offset : ℚ) : List FaceRect :=
  let x0 := x_offset
  let y0 := y_offset + h + l
  let x1 := x_offset + w_mid + w
  [⟨x0 + cut_gap, y0 + cut_gap, w_mid - cut_gap, h - 2 * cut_gap, .dashFine⟩,
   ⟨x1, y0 + cut_gap, w_mid - cut_gap, h - 2 * cut_gap, .dashFine⟩]

/-- Lines 241-256 (the GAPPING pass): `l, w, h` are the working (inflated)
dimensions; the code subtracts `2*gap` from each and re-emits four solid
main-column rectangles inset by `gap`. -/
def gapFaces (l w h w_mid gap x_offset y_offset : ℚ) : List FaceRect :=
  let li := l - 2 * gap
  let wi := w - 2 * gap
  let hi := h - 2 * gap
  let x0 := x_offset + w_mid + gap
  let y0 := y_offset + gap
  let y1 := y0 + (hi + 2 * gap)
  let y2 := y1 + (li + 2 * gap)
  let y3 := y2 + (hi + 2 * gap)
  [⟨x0, y0, wi, hi, .solid⟩,
   ⟨x0, y1, wi, li, .solid⟩,
   ⟨x0, y2, wi, hi, .solid⟩,
   ⟨x0, y3, wi, li, .solid⟩]

/-- The full drawing phase (lines 140-260) for given working dimensions and
mid-face width: the 13 outer rectangles, followed, when `GAPPING = gap > 0`,
by the 4 inset main-column rectangles. -/
def buildOutput (l w h w_mid : ℚ) (warnings : List BoxWarning)
    (gap cut_gap x_offset y_offset : ℚ) : BoxOutput :=
  let outer := mainFaces l w h w_mid cut_gap x_offset y_offset
    ++ sideFaces l w h w_mid cut_gap x_offset y_offset
    ++ midFaces l w h w_mid cut_gap x_offset y_offset
  let layout := if 0 < gap then outer ++ gapFaces l w h w_mid gap x_offset y_offset
    else outer
  ⟨l, w, h, w_mid, warnings, layout⟩

/-- The whole pipeline `generate_paper_box` (lines 58-260).  Sorting and gap
inflation (`workingDims`), the page-size conversion `pagesize / 28.35` to
centimetres, the `assert l >= w >= h > 0`, the length check governed by
`ALLOW_WARPING` (warning when true, `assert L_MAX < L_PAGE` when false), the
hard width check `assert W_MAX <= W_PAGE`, the mid-face sizing under
`make_long_mid_faces` (with clamping warning), and the drawing.  When
`make_long_mid_faces` is false, `w_mid` is never assigned and the first
drawing line raises `NameError`, before anything is written. -/
def generate_paper_box (l0 w0 h0 : ℚ) (pagesize : ℚ × ℚ)
    (gap cut_gap x_offset y_offset : ℚ)
    (make_long_mid_faces ALLOW_WARPING : Bool) : Except BoxError BoxOutput :=
  let dims := workingDims l0 w0 h0 gap
  let l := dims.1
  let w := dims.2.1
  let h := dims.2.2
  let L_PAGE := pagesize.2 / (567 / 20)  -- conversion to cm (28.35 pt per cm)
  let W_PAGE := pagesize.1 / (567 / 20)
  if l ≥ w ∧ w ≥ h ∧ 0 < h then
    let L_MAX := l * 2 + 3 * h
    if ALLOW_WARPING = false ∧ L_MAX ≥ L_PAGE then
      Except.error BoxError.DimensionsExceedPage
    else
      let warns1 : List BoxWarning :=
        if ALLOW_WARPING = true ∧ L_MAX ≥ L_PAGE then [BoxWarning.LengthOverflow] else []
      let W_MAX := w + 2 * h
      if W_MAX > W_PAGE then Except.error BoxError.DimensionsExceedPage
      else if make_long_mid_faces then
        let W_WIDE_MAX := W_PAGE - w - x_offset * 2
        let w_mid_half := W_WIDE_MAX / 2
        if l > w_mid_half then
          Except.ok (buildOutput l w h w_mid_half (warns1 ++ [BoxWarning.MidFaceClamped])
            gap cut_gap x_offset y_offset)
        else
          Except.ok (buildOutput l w h l warns1 gap cut_gap x_offset y_offset)
      else Except.error BoxError.UnboundWMid
  else Except.error BoxError.InvalidDimension

/-- Reflection of a rectangle about the vertical line `x = xc`. -/
def reflectRect (xc : ℚ) (fr : FaceRect) : FaceRect :=
  ⟨2 * xc - fr.x - fr.width, fr.y, fr.width, fr.height, fr.style⟩

/-- A throwaway output used to project concrete successful runs. -/
def defaultBoxOutput : BoxOutput := ⟨0, 0, 0, 0, [], []⟩

/-- The sorted triple is in descending order. -/
theorem sort3Desc_ordered (x y z : ℚ) :
    (sort3Desc x y z).1 ≥ (sort3Desc x y z).2.1 ∧
    (sort3Desc x y z).2.1 ≥ (sort3Desc x y z).2.2 := by
  unfold sort3Desc
  split_ifs <;> dsimp <;> constructor <;> linarith

/-- The working dimensions are in descending order. -/
theorem workingDims_ordered (l0 w0 h0 gap : ℚ) :
    (workingDims l0 w0 h0 gap).1 ≥ (workingDims l0 w0 h0 gap).2.1 ∧
    (workingDims l0 w0 h0 gap).2.1 ≥ (workingDims l0 w0 h0 gap).2.2 := by
  have h := sort3Desc_ordered l0 w0 h0
  unfold workingDims
  split_ifs <;> dsimp <;> constructor <;> linarith [h.1, h.2]

/-- Claim C1, counterexample: with the default gap of 0.075 cm the input
(10, 8, -0.05) has a dimension that is ≤ 0 after sorting descending, and
gap ≥ 0, yet the pipeline does not fail with InvalidDimension: it succeeds,
because the validity assert runs only after gap inflation, on
-0.05 + 2·0.075 = 0.1 > 0. -/
theorem C1_counterexample :
    ((-1 / 20 : ℚ) ≤ 0 ∧ (0 : ℚ) ≤ 3 / 40) ∧
    generate_paper_box 10 8 (-1 / 20) A4 (3 / 40) (1 / 4) (1 / 2) (1 / 2) true true
        ≠ Except.error BoxError.InvalidDimension ∧
    (generate_paper_box 10 8 (-1 / 20) A4 (3 / 40) (1 / 4) (1 / 2) (1 / 2) true true).toOption.isSome
        = true := by
  refine ⟨by norm_num, ?_, ?_⟩
  · intro hcontra
    have hs : (generate_paper_box 10 8 (-1 / 20) A4 (3 / 40) (1 / 4) (1 / 2) (1 / 2)
        true true).toOption.isSome = true := by
      norm_num [generate_paper_box, workingDims, sort3Desc, A4, buildOutput, mainFaces,
        sideFaces, midFaces, gapFaces, Except.toOption]
    rw [hcontra] at hs
    simp [Except.toOption] at hs
  · norm_num [generate_paper_box, workingDims, sort3Desc, A4, buildOutput, mainFaces,
      sideFaces, midFaces, gapFaces, Except.toOption]

/-- Claim C1 (amended): the pipeline fails with InvalidDimension, before any
drawing call, exactly when the smallest dimension is still ≤ 0 after the gap
inflation of lines 99-102 (for gap = 0 this is the smallest input dimension
itself); the check is on the inflated values, so for gap > 0 a dimension
d ≤ 0 with d + 2·gap > 0 escapes it.  Stated here: whenever the smallest
working dimension is ≤ 0, the result is the InvalidDimension error and no
layout is produced, for every gap ≥ 0 and every configuration. -/
theorem C1_amended_invalid_dimension (l0 w0 h0 : ℚ) (pagesize : ℚ × ℚ)
    (gap cut_gap x_offset y_offset : ℚ) (mlmf AW : Bool)
    (_hg : 0 ≤ gap) (hmin : (workingDims l0 w0 h0 gap).2.2 ≤ 0) :
    generate_paper_box l0 w0 h0 pagesize gap cut_gap x_offset y_offset mlmf AW
      = Except.error BoxError.InvalidDimension := by
  have hc : ¬((workingDims l0 w0 h0 gap).1 ≥ (workingDims l0 w0 h0 gap).2.1 ∧
      (workingDims l0 w0 h0 gap).2.1 ≥ (workingDims l0 w0 h0 gap).2.2 ∧
      0 < (workingDims l0 w0 h0 gap).2.2) :=
    fun hcond => absurd hcond.2.2 (not_lt.mpr hmin)
  simp only [generate_paper_box]
  rw [if_neg hc]

/-- Claim C1 witness: the amended theorem applied at (10, 8, 0) with gap 0. -/
theorem C1_amended_invalid_dimension_witness :
    (0 : ℚ) ≤ 0 ∧ (workingDims 10 8 0 0).2.2 ≤ 0 ∧
    generate_paper_box 10 8 0 A4 0 (1 / 4) (1 / 2) (1 / 2) true true
      = Except.error BoxError.InvalidDimension :=
  ⟨by decide, by decide,
    C1_amended_invalid_dimension 10 8 0 A4 0 (1 / 4) (1 / 2) (1 / 2) true true
      (by decide) (by decide)⟩

/-- Claim C2, counterexample: for l=10, w=8, h=4, gap=0 on A4 the run does
succeed, but the emitted layout has 13 rectangles, not 9, and not all of them
are solid. -/
theorem C2_counterexample :
    ((generate_paper_box 10 8 4 A4 0 (1 / 4) (1 / 2) (1 / 2) true true).toOption.map
        (fun o => (o.layout.length, o.layout.all (fun fr => fr.style == LineStyle.solid))))
      = some (13, false) ∧ (13 : Nat) ≠ 9 := by
  refine ⟨?_, by norm_num⟩
  norm_num [generate_paper_box, workingDims, sort3Desc, A4, buildOutput, mainFaces,
    sideFaces, midFaces, gapFaces, Except.toOption, List.all]
  decide

/-- Claim C2 (amended): for l=10, w=8, h=4, gap=0 on A4 the run succeeds and
the emitted layout consists of exactly 13 rectangles: 6 solid (4 main-column
faces and the 2 side panels), 3 coarse-dashed (the cover flap and the 2 upper
side flaps) and 4 fine-dashed (the 2 side base tabs and the 2 mid faces). -/
theorem C2_amended_layout :
    ((generate_paper_box 10 8 4 A4 0 (1 / 4) (1 / 2) (1 / 2) true true).toOption.map
        (fun o => (o.layout.length,
          o.layout.countP (fun fr => fr.style == LineStyle.solid),
          o.layout.countP (fun fr => fr.style == LineStyle.dashCoarse),
          o.layout.countP (fun fr => fr.style == LineStyle.dashFine))))
      = some (13, 6, 3, 4) := by
  norm_num [generate_paper_box, workingDims, sort3Desc, A4, buildOutput, mainFaces,
    sideFaces, midFaces, gapFaces, Except.toOption, List.countP, List.countP.go]
  decide

/-- Claim C3, counterexample: for l=10, w=8, h=4, gap=0.075 cm on A4 the run
succeeds but the layout has 17 rectangles, not 14, and the gap pass re-emits
only 4 inset main-column rectangles, not 5 (the cover flap is not
re-emitted). -/
theorem C3_counterexample :
    ((generate_paper_box 10 8 4 A4 (3 / 40) (1 / 4) (1 / 2) (1 / 2) true true).toOption.map
        (fun o => (o.layout.length, (o.layout.drop 13).length)))
      = some (17, 4) ∧ ((17 : Nat) ≠ 14 ∧ (4 : Nat) ≠ 5) := by
  refine ⟨?_, by norm_num, by norm_num⟩
  norm_num [generate_paper_box, workingDims, sort3Desc, A4, buildOutput, mainFaces,
    sideFaces, midFaces, gapFaces, Except.toOption]

/-- Claim C3 (amended): when gap > 0 the builder re-emits exactly four inset
main-column rectangles (and nothing else) using solid lines — the dashed cover
flap of the outer column is not duplicated — so for l=10, w=8, h=4,
gap=0.075 cm the layout contains 17 rectangles in total: the 13 outer ones
plus 4 inset main-column ones, whose dimensions are the original (8, 4),
(8, 10), (8, 4), (8, 10). -/
theorem C3_amended_gap_pass :
    ((generate_paper_box 10 8 4 A4 (3 / 40) (1 / 4) (1 / 2) (1 / 2) true true).toOption.map
        (fun o => (o.layout.length,
          (o.layout.drop 13).map (fun fr => (fr.width, fr.height, fr.style)))))
      = some (17,
          [((8 : ℚ), (4 : ℚ), LineStyle.solid), (8, 10, LineStyle.solid),
            (8, 4, LineStyle.solid), (8, 10, LineStyle.solid)]) := by
  norm_num [generate_paper_box, workingDims, sort3Desc, A4, buildOutput, mainFaces,
    sideFaces, midFaces, gapFaces, Except.toOption]

/-- Claim C4 (code bug): the source assigns `w_mid` only inside
`if make_long_mid_faces:` (lines 128-138); with the flag disabled, the first
drawing statement `x0 = (x_offset + w_mid) * cm` (line 147) raises NameError,
so the run aborts instead of using a mid-face width equal to h.  Evaluating
the model at l=10, w=8, h=4, gap=0 with the flag disabled yields the
unbound-variable outcome, not a layout. -/
theorem C4_flag_disabled_crashes :
    generate_paper_box 10 8 4 A4 0 (1 / 4) (1 / 2) (1 / 2) false true
      = Except.error BoxError.UnboundWMid := by
  norm_num [generate_paper_box, workingDims, sort3Desc, A4]

/-- Claim C5: with `make_long_mid_faces` enabled, for every input that passes
validation, if the working l exceeds `maxMidWidth = (W_PAGE - w - 2*x_offset)/2`
then the mid-face width equals that bound exactly and the MidFaceClamped
warning is recorded; otherwise the mid-face width equals l and no such warning
is recorded. -/
theorem C5_mid_face_clamping (l0 w0 h0 : ℚ) (pagesize : ℚ × ℚ)
    (gap cut_gap x_offset y_offset : ℚ) (AW : Bool)
    (hok : (generate_paper_box l0 w0 h0 pagesize gap cut_gap x_offset y_offset
      true AW).toOption.isSome = true) :
    (generate_paper_box l0 w0 h0 pagesize gap cut_gap x_offset y_offset
        true AW).toOption.map
        (fun o => (o.w_mid, decide (BoxWarning.MidFaceClamped ∈ o.warnings)))
      = some
        (if (workingDims l0 w0 h0 gap).1 >
            (pagesize.1 / (567 / 20) - (workingDims l0 w0 h0 gap).2.1 - x_offset * 2) / 2
         then ((pagesize.1 / (567 / 20) - (workingDims l0 w0 h0 gap).2.1 - x_offset * 2) / 2,
           true)
         else ((workingDims l0 w0 h0 gap).1, false)) := by
  simp only [generate_paper_box] at hok ⊢
  split_ifs at hok ⊢ <;>
    simp_all [Except.toOption, buildOutput]

/-- Claim C5 witness: the theorem applied at l=10, w=8, h=4, gap=0 on A4,
where l is clamped to (W_PAGE - 8 - 1)/2 = 4571/762 and the warning is
recorded. -/
theorem C5_mid_face_clamping_witness :
    (generate_paper_box 10 8 4 A4 0 (1 / 4) (1 / 2) (1 / 2) true true).toOption.isSome
        = true ∧
    (generate_paper_box 10 8 4 A4 0 (1 / 4) (1 / 2) (1 / 2) true true).toOption.map
        (fun o => (o.w_mid, decide (BoxWarning.MidFaceClamped ∈ o.warnings)))
      = some
        (if (workingDims 10 8 4 0).1 >
            (A4.1 / (567 / 20) - (workingDims 10 8 4 0).2.1 - (1 / 2) * 2) / 2
         then ((A4.1 / (567 / 20) - (workingDims 10 8 4 0).2.1 - (1 / 2) * 2) / 2, true)
         else ((workingDims 10 8 4 0).1, false)) :=
  ⟨by norm_num [generate_paper_box, workingDims, sort3Desc, A4, buildOutput, mainFaces,
      sideFaces, midFaces, gapFaces, Except.toOption],
   C5_mid_face_clamping 10 8 4 A4 0 (1 / 4) (1 / 2) (1 / 2) true
    (by norm_num [generate_paper_box, workingDims, sort3Desc, A4, buildOutput, mainFaces,
      sideFaces, midFaces, gapFaces, Except.toOption])⟩

/-- Claim C6: whenever the working dimensions are valid and their horizontal
extent `W_MAX = w + 2*h` exceeds the usable page width, the pipeline fails
with DimensionsExceedPage, for every value of `make_long_mid_faces` and
`ALLOW_WARPING` — width overflow is never downgraded to a warning. -/
theorem C6_width_overflow_fatal (l0 w0 h0 : ℚ) (pagesize : ℚ × ℚ)
    (gap cut_gap x_offset y_offset : ℚ) (mlmf AW : Bool)
    (hpos : 0 < (workingDims l0 w0 h0 gap).2.2)
    (hover : (workingDims l0 w0 h0 gap).2.1 + 2 * (workingDims l0 w0 h0 gap).2.2
      > pagesize.1 / (567 / 20)) :
    generate_paper_box l0 w0 h0 pagesize gap cut_gap x_offset y_offset mlmf AW
      = Except.error BoxError.DimensionsExceedPage := by
  have hord := workingDims_ordered l0 w0 h0 gap
  simp only [generate_paper_box]
  rw [if_pos ⟨hord.1, hord.2, hpos⟩]
  split_ifs <;> rfl

/-- Claim C6 witness: the theorem applied to the 10 × 10 × 10 cube on A4
(width extent 30 cm against a usable width of about 21 cm). -/
theorem C6_width_overflow_fatal_witness :
    0 < (workingDims 10 10 10 0).2.2 ∧
    (workingDims 10 10 10 0).2.1 + 2 * (workingDims 10 10 10 0).2.2
      > A4.1 / (567 / 20) ∧
    generate_paper_box 10 10 10 A4 0 (1 / 4) (1 / 2) (1 / 2) true true
      = Except.error BoxError.DimensionsExceedPage :=
  ⟨by norm_num [workingDims, sort3Desc],
   by norm_num [workingDims, sort3Desc, A4],
   C6_width_overflow_fatal 10 10 10 A4 0 (1 / 4) (1 / 2) (1 / 2) true true
    (by norm_num [workingDims, sort3Desc])
    (by norm_num [workingDims, sort3Desc, A4])⟩

/-- Claim C7: length overflow is fatal exactly when ALLOW_WARPING is
disabled.  With valid working dimensions and `L_MAX = 2*l + 3*h ≥ L_PAGE`:
when the flag is false the pipeline fails with DimensionsExceedPage (no
output); when the flag is true and the width fits, the pipeline succeeds,
records the LengthOverflow warning, and emits the same number of rectangles
as any non-overflowing run (13, or 17 when gap > 0). -/
theorem C7_length_overflow_policy (l0 w0 h0 : ℚ) (pagesize : ℚ × ℚ)
    (gap cut_gap x_offset y_offset : ℚ)
    (hpos : 0 < (workingDims l0 w0 h0 gap).2.2)
    (hover : (workingDims l0 w0 h0 gap).1 * 2 + 3 * (workingDims l0 w0 h0 gap).2.2
      ≥ pagesize.2 / (567 / 20)) :
    generate_paper_box l0 w0 h0 pagesize gap cut_gap x_offset y_offset true false
      = Except.error BoxError.DimensionsExceedPage ∧
    ((workingDims l0 w0 h0 gap).2.1 + 2 * (workingDims l0 w0 h0 gap).2.2
        ≤ pagesize.1 / (567 / 20) →
      (generate_paper_box l0 w0 h0 pagesize gap cut_gap x_offset y_offset
          true true).toOption.map
          (fun o => (decide (BoxWarning.LengthOverflow ∈ o.warnings), o.layout.length))
        = some (true, if 0 < gap then 17 else 13)) := by
  have hord := workingDims_ordered l0 w0 h0 gap
  constructor
  · simp only [generate_paper_box]
    rw [if_pos ⟨hord.1, hord.2, hpos⟩, if_pos ⟨trivial, hover⟩]
  · intro hwidth
    simp only [generate_paper_box]
    rw [if_pos ⟨hord.1, hord.2, hpos⟩]
    split_ifs with h1 h2 h3 h4 h5 <;>
        simp_all [Except.toOption, buildOutput, mainFaces, sideFaces, midFaces, gapFaces] <;>
      first
        | linarith
        | (rw [if_neg (not_lt.mpr ‹gap ≤ 0›)]; simp)

/-- Claim C7 witness: the theorem applied to the spec's Example 3, l=30, w=5,
h=1 on A4 (length extent 63 cm against a usable length of about 29.7 cm,
width extent 7 cm fits). -/
theorem C7_length_overflow_policy_witness :
    0 < (workingDims 30 5 1 0).2.2 ∧
    (workingDims 30 5 1 0).1 * 2 + 3 * (workingDims 30 5 1 0).2.2 ≥ A4.2 / (567 / 20) ∧
    generate_paper_box 30 5 1 A4 0 (1 / 4) (1 / 2) (1 / 2) true false
      = Except.error BoxError.DimensionsExceedPage ∧
    (generate_paper_box 30 5 1 A4 0 (1 / 4) (1 / 2) (1 / 2) true true).toOption.map
        (fun o => (decide (BoxWarning.LengthOverflow ∈ o.warnings), o.layout.length))
      = some (true, if (0 : ℚ) < 0 then 17 else 13) := by
  have h := C7_length_overflow_policy 30 5 1 A4 0 (1 / 4) (1 / 2) (1 / 2)
    (by norm_num [workingDims, sort3Desc])
    (by norm_num [workingDims, sort3Desc, A4])
  exact ⟨by norm_num [workingDims, sort3Desc],
    by norm_num [workingDims, sort3Desc, A4],
    h.1, h.2 (by norm_num [workingDims, sort3Desc, A4])⟩

/-- Componentwise equality of triples. -/
theorem prod3_ext (a1 b1 c1 a2 b2 c2 : ℚ) (h1 : a1 = a2) (h2 : b1 = b2)
    (h3 : c1 = c2) : ((a1, b1, c1) : ℚ × ℚ × ℚ) = (a2, b2, c2) := by
  rw [h1, h2, h3]

/-- Exchanging the first two elements of the multiset literal. -/
theorem multiset3_swap12 (a b c : ℚ) : ({a, b, c} : Multiset ℚ) = {b, a, c} := by
  simp only [Multiset.insert_eq_cons]
  exact Multiset.cons_swap a b _

/-- Exchanging the last two elements of the multiset literal. -/
theorem multiset3_swap23 (a b c : ℚ) : ({a, b, c} : Multiset ℚ) = {a, c, b} := by
  simp only [Multiset.insert_eq_cons, ← Multiset.cons_zero]
  exact congrArg (Multiset.cons a) (Multiset.cons_swap b c 0)

/-- The sorted triple carries the same three values as the input, as a
multiset. -/
theorem sort3Desc_multiset (x y z : ℚ) :
    ({(sort3Desc x y z).1, (sort3Desc x y z).2.1, (sort3Desc x y z).2.2} : Multiset ℚ)
      = {x, y, z} := by
  unfold sort3Desc
  split_ifs <;> dsimp only
  · exact (multiset3_swap23 x y z).symm
  · exact (multiset3_swap12 z x y).trans (multiset3_swap23 x y z).symm
  · exact multiset3_swap12 y x z
  · exact (multiset3_swap23 y z x).trans (multiset3_swap12 y x z)
  · exact (multiset3_swap12 z y x).trans
      ((multiset3_swap23 y z x).trans (multiset3_swap12 y x z))

/-- Sorting three values is invariant under exchanging the first two
arguments. -/
theorem sort3Desc_swap12 (x y z : ℚ) : sort3Desc x y z = sort3Desc y x z := by
  unfold sort3Desc
  split_ifs <;> first | rfl | (apply prod3_ext <;> linarith)

/-- Sorting three values is invariant under exchanging the last two
arguments. -/
theorem sort3Desc_swap23 (x y z : ℚ) : sort3Desc x y z = sort3Desc x z y := by
  unfold sort3Desc
  split_ifs <;> first | rfl | (apply prod3_ext <;> linarith)

/-- The pipeline only looks at the dimensions through `sort3Desc`. -/
theorem generate_paper_box_congr_sort (a b c x y z : ℚ) (pagesize : ℚ × ℚ)
    (gap cut_gap x_offset y_offset : ℚ) (mlmf AW : Bool)
    (hs : sort3Desc a b c = sort3Desc x y z) :
    generate_paper_box a b c pagesize gap cut_gap x_offset y_offset mlmf AW
      = generate_paper_box x y z pagesize gap cut_gap x_offset y_offset mlmf AW := by
  simp only [generate_paper_box, workingDims, hs]

/-- Claim C8: for positive inputs the normalizer (line 91) returns the three
values sorted descending — the same multiset — and the whole pipeline is
invariant under every permutation of its three dimension arguments, because
every downstream quantity is computed from the sorted triple. -/
theorem C8_normalization_permutation (a b c : ℚ) (pagesize : ℚ × ℚ)
    (gap cut_gap x_offset y_offset : ℚ) (mlmf AW : Bool)
    (_ha : 0 < a) (_hb : 0 < b) (_hc : 0 < c) :
    ((sort3Desc a b c).1 ≥ (sort3Desc a b c).2.1 ∧
      (sort3Desc a b c).2.1 ≥ (sort3Desc a b c).2.2 ∧
      ({(sort3Desc a b c).1, (sort3Desc a b c).2.1, (sort3Desc a b c).2.2} : Multiset ℚ)
        = {a, b, c}) ∧
    (generate_paper_box a b c pagesize gap cut_gap x_offset y_offset mlmf AW
        = generate_paper_box b a c pagesize gap cut_gap x_offset y_offset mlmf AW ∧
      generate_paper_box a b c pagesize gap cut_gap x_offset y_offset mlmf AW
        = generate_paper_box a c b pagesize gap cut_gap x_offset y_offset mlmf AW ∧
      generate_paper_box a b c pagesize gap cut_gap x_offset y_offset mlmf AW
        = generate_paper_box b c a pagesize gap cut_gap x_offset y_offset mlmf AW ∧
      generate_paper_box a b c pagesize gap cut_gap x_offset y_offset mlmf AW
        = generate_paper_box c a b pagesize gap cut_gap x_offset y_offset mlmf AW ∧
      generate_paper_box a b c pagesize gap cut_gap x_offset y_offset mlmf AW
        = generate_paper_box c b a pagesize gap cut_gap x_offset y_offset mlmf AW) := by
  have hsort := sort3Desc_ordered a b c
  refine ⟨⟨hsort.1, hsort.2, sort3Desc_multiset a b c⟩, ?_, ?_, ?_, ?_, ?_⟩ <;>
    apply generate_paper_box_congr_sort
  · exact sort3Desc_swap12 a b c
  · exact sort3Desc_swap23 a b c
  · exact (sort3Desc_swap12 a b c).trans (sort3Desc_swap23 b a c)
  · exact (sort3Desc_swap23 a b c).trans (sort3Desc_swap12 a c b)
  · exact ((sort3Desc_swap12 a b c).trans (sort3Desc_swap23 b a c)).trans
      (sort3Desc_swap12 b c a)

/-- Claim C8 witness: the theorem applied at (3, 5, 4) with the default
configuration on A4. -/
theorem C8_normalization_permutation_witness :
    ((sort3Desc 3 5 4).1 ≥ (sort3Desc 3 5 4).2.1 ∧
      (sort3Desc 3 5 4).2.1 ≥ (sort3Desc 3 5 4).2.2 ∧
      ({(sort3Desc 3 5 4).1, (sort3Desc 3 5 4).2.1, (sort3Desc 3 5 4).2.2} : Multiset ℚ)
        = {3, 5, 4}) ∧
    (generate_paper_box 3 5 4 A4 (3 / 40) (1 / 4) (1 / 2) (1 / 2) true true
        = generate_paper_box 5 3 4 A4 (3 / 40) (1 / 4) (1 / 2) (1 / 2) true true ∧
      generate_paper_box 3 5 4 A4 (3 / 40) (1 / 4) (1 / 2) (1 / 2) true true
        = generate_paper_box 3 4 5 A4 (3 / 40) (1 / 4) (1 / 2) (1 / 2) true true ∧
      generate_paper_box 3 5 4 A4 (3 / 40) (1 / 4) (1 / 2) (1 / 2) true true
        = generate_paper_box 5 4 3 A4 (3 / 40) (1 / 4) (1 / 2) (1 / 2) true true ∧
      generate_paper_box 3 5 4 A4 (3 / 40) (1 / 4) (1 / 2) (1 / 2) true true
        = generate_paper_box 4 3 5 A4 (3 / 40) (1 / 4) (1 / 2) (1 / 2) true true ∧
      generate_paper_box 3 5 4 A4 (3 / 40) (1 / 4) (1 / 2) (1 / 2) true true
        = generate_paper_box 4 5 3 A4 (3 / 40) (1 / 4) (1 / 2) (1 / 2) true true) :=
  C8_normalization_permutation 3 5 4 A4 (3 / 40) (1 / 4) (1 / 2) (1 / 2) true true
    (by norm_num) (by norm_num) (by norm_num)

/-- Claim C9: gap round-trip.  For every gap g > 0, on any run that succeeds,
the four inset main-column rectangles of the gap pass (the entries after the
13 outer ones) have width equal to the original pre-inflation sorted w and
heights equal to the original (h, l, h, l): inflating by 2*gap and then
subtracting 2*gap is exact in rational arithmetic. -/
theorem C9_gap_roundtrip (l0 w0 h0 : ℚ) (pagesize : ℚ × ℚ)
    (gap cut_gap x_offset y_offset : ℚ) (AW : Bool)
    (hgap : 0 < gap)
    (hok : (generate_paper_box l0 w0 h0 pagesize gap cut_gap x_offset y_offset
      true AW).toOption.isSome = true) :
    (generate_paper_box l0 w0 h0 pagesize gap cut_gap x_offset y_offset
        true AW).toOption.map
        (fun o => (o.layout.drop 13).map (fun fr => (fr.width, fr.height)))
      = some [((sort3Desc l0 w0 h0).2.1, (sort3Desc l0 w0 h0).2.2),
          ((sort3Desc l0 w0 h0).2.1, (sort3Desc l0 w0 h0).1),
          ((sort3Desc l0 w0 h0).2.1, (sort3Desc l0 w0 h0).2.2),
          ((sort3Desc l0 w0 h0).2.1, (sort3Desc l0 w0 h0).1)] := by
  simp only [generate_paper_box, workingDims, if_pos hgap] at hok ⊢
  split_ifs at hok ⊢ <;>
    simp_all [Except.toOption, buildOutput, mainFaces, sideFaces, midFaces, gapFaces]

/-- Claim C9 witness: the theorem applied at l=10, w=8, h=4, gap=0.075 cm on
A4, where the inner rectangle dimensions are the original (8, 4), (8, 10),
(8, 4), (8, 10). -/
theorem C9_gap_roundtrip_witness :
    (0 : ℚ) < 3 / 40 ∧
    (generate_paper_box 10 8 4 A4 (3 / 40) (1 / 4) (1 / 2) (1 / 2)
      true true).toOption.isSome = true ∧
    (generate_paper_box 10 8 4 A4 (3 / 40) (1 / 4) (1 / 2) (1 / 2)
        true true).toOption.map
        (fun o => (o.layout.drop 13).map (fun fr => (fr.width, fr.height)))
      = some [((sort3Desc 10 8 4).2.1, (sort3Desc 10 8 4).2.2),
          ((sort3Desc 10 8 4).2.1, (sort3Desc 10 8 4).1),
          ((sort3Desc 10 8 4).2.1, (sort3Desc 10 8 4).2.2),
          ((sort3Desc 10 8 4).2.1, (sort3Desc 10 8 4).1)] :=
  ⟨by norm_num,
   by norm_num [generate_paper_box, workingDims, sort3Desc, A4, buildOutput, mainFaces,
      sideFaces, midFaces, gapFaces, Except.toOption],
   C9_gap_roundtrip 10 8 4 A4 (3 / 40) (1 / 4) (1 / 2) (1 / 2) true (by norm_num)
    (by norm_num [generate_paper_box, workingDims, sort3Desc, A4, buildOutput, mainFaces,
      sideFaces, midFaces, gapFaces, Except.toOption])⟩

/-- Reflecting any of the 13 outer rectangles about the vertical centre line
of the main column, `x = x_offset + w_mid + w/2`, yields another of the 13
outer rectangles with the same style. -/
theorem reflect_outer_mem (l w h w_mid cut_gap x_offset y_offset : ℚ) (fr : FaceRect)
    (hfr : fr ∈ mainFaces l w h w_mid cut_gap x_offset y_offset
      ++ sideFaces l w h w_mid cut_gap x_offset y_offset
      ++ midFaces l w h w_mid cut_gap x_offset y_offset) :
    reflectRect (x_offset + w_mid + w / 2) fr
      ∈ mainFaces l w h w_mid cut_gap x_offset y_offset
        ++ sideFaces l w h w_mid cut_gap x_offset y_offset
        ++ midFaces l w h w_mid cut_gap x_offset y_offset := by
  simp only [mainFaces, sideFaces, midFaces, List.mem_append, List.mem_cons,
    List.not_mem_nil, or_false] at hfr ⊢
  rcases hfr with ((rfl|rfl|rfl|rfl|rfl)|(rfl|rfl|rfl|rfl|rfl|rfl))|(rfl|rfl) <;>
      simp only [reflectRect, FaceRect.mk.injEq] <;>
    ring_nf <;> simp

/-- Each of the 4 inset gap-pass rectangles is its own mirror image about the
same centre line (here `w` is the working width used for the outer pass). -/
theorem reflect_gap_mem (l w h w_mid gap x_offset y_offset : ℚ) (fr : FaceRect)
    (hfr : fr ∈ gapFaces l w h w_mid gap x_offset y_offset) :
    reflectRect (x_offset + w_mid + w / 2) fr
      ∈ gapFaces l w h w_mid gap x_offset y_offset := by
  simp only [gapFaces, List.mem_cons, List.not_mem_nil, or_false] at hfr ⊢
  rcases hfr with rfl|rfl|rfl|rfl <;>
      simp only [reflectRect, FaceRect.mk.injEq] <;>
    ring_nf <;> simp

/-- Claim C10: for every run that succeeds (with `make_long_mid_faces`
enabled), the emitted layout — outer faces, inset tab and flap outlines, and
the gap-pass inner rectangles — is mirror-symmetric about the vertical line
`x = x_offset + w_mid + w/2` through the centre of the main column: the
reflection of every emitted rectangle is also emitted, with the same line
style. -/
theorem C10_mirror_symmetry (l0 w0 h0 : ℚ) (pagesize : ℚ × ℚ)
    (gap cut_gap x_offset y_offset : ℚ) (AW : Bool) (o : BoxOutput) (fr : FaceRect)
    (hok : generate_paper_box l0 w0 h0 pagesize gap cut_gap x_offset y_offset true AW
      = Except.ok o)
    (hfr : fr ∈ o.layout) :
    reflectRect (x_offset + o.w_mid + o.w / 2) fr ∈ o.layout := by
  simp only [generate_paper_box] at hok
  split_ifs at hok <;> try exact Except.noConfusion hok
  all_goals simp only [Except.ok.injEq] at hok
  all_goals subst hok
  all_goals simp only [buildOutput] at hfr ⊢
  all_goals split_ifs at hfr ⊢
  all_goals
    first
      | exact reflect_outer_mem _ _ _ _ _ _ _ _ hfr
      | (rcases List.mem_append.mp hfr with hO | hG
         · exact List.mem_append_left _ (reflect_outer_mem _ _ _ _ _ _ _ _ hO)
         · exact List.mem_append_right _ (reflect_gap_mem _ _ _ _ _ _ _ _ hG))

/-- Claim C10 witness: the theorem applied to the l=10, w=8, h=4, gap=0 run
on A4 and its first emitted rectangle (the bottom main face). -/
theorem C10_mirror_symmetry_witness :
    reflectRect ((1 / 2) +
        ((generate_paper_box 10 8 4 A4 0 (1 / 4) (1 / 2) (1 / 2) true
          true).toOption.getD defaultBoxOutput).w_mid +
        ((generate_paper_box 10 8 4 A4 0 (1 / 4) (1 / 2) (1 / 2) true
          true).toOption.getD defaultBoxOutput).w / 2)
        ⟨2476 / 381, 1 / 2, 8, 4, LineStyle.solid⟩
      ∈ ((generate_paper_box 10 8 4 A4 0 (1 / 4) (1 / 2) (1 / 2) true
          true).toOption.getD defaultBoxOutput).layout :=
  C10_mirror_symmetry 10 8 4 A4 0 (1 / 4) (1 / 2) (1 / 2) true
    ((generate_paper_box 10 8 4 A4 0 (1 / 4) (1 / 2) (1 / 2) true
      true).toOption.getD defaultBoxOutput)
    ⟨2476 / 381, 1 / 2, 8, 4, LineStyle.solid⟩
    (by norm_num [generate_paper_box, workingDims, sort3Desc, A4, buildOutput, mainFaces,
      sideFaces, midFaces, gapFaces, Except.toOption])
    (by norm_num [generate_paper_box, workingDims, sort3Desc, A4, buildOutput, mainFaces,
      sideFaces, midFaces, gapFaces, Except.toOption])
